import Mathlib

/-!
Verification of the emscripten HTTP response adaptation layer
(`src/urllib3/contrib/emscripten/response.py`).

The development shallowly embeds the module: pure header analysis becomes
Lean functions, the stateful response wrapper becomes explicit state
passing over `RState`, and fallible Python code returns
`Except PyErr _`.  Python runtime failures that the module can actually
raise (NameError for the unbound names `log`, `InvalidHeader` and
`read_data`; TypeError for `None > 0` and for the arity-mismatched
`self._init_length()` call) are modelled as `PyErr` values.
-/

namespace Urllib3

/-- Python exception values that the embedded code can raise.
`nameError n` is a NameError for the unbound identifier `n`;
`typeError m` is a TypeError; `unicodeDecodeError` stands for
UnicodeDecodeError (the DecodeError of the spec) and `jsonDecodeError`
for json.JSONDecodeError (the ParseError of the spec). -/
inductive PyErr where
  | nameError (n : String)
  | typeError (m : String)
  | unicodeDecodeError
  | jsonDecodeError
  deriving Repr, DecidableEq

/-- A header map: ordered key/value pairs of strings. -/
abbrev Headers := List (String × String)

instance exceptDecEq {e a : Type} [DecidableEq e] [DecidableEq a] :
    DecidableEq (Except e a) := fun x y =>
  match x, y with
  | Except.ok v, Except.ok w =>
    decidable_of_iff (v = w) ⟨fun h => h ▸ rfl, fun h => by injection h⟩
  | Except.error v, Except.error w =>
    decidable_of_iff (v = w) ⟨fun h => h ▸ rfl, fun h => by injection h⟩
  | Except.ok _, Except.error _ => isFalse (fun h => by injection h)
  | Except.error _, Except.ok _ => isFalse (fun h => by injection h)

/-- ASCII lowercase of a character code (A-Z mapped down). -/
def lowerN (n : Nat) : Nat := if 65 <= n && n <= 90 then n + 32 else n

/-- Case-insensitive (ASCII) character equality. -/
def chEqCI (a b : Char) : Bool := lowerN a.toNat == lowerN b.toNat

/-- Case-insensitive (ASCII) equality of character lists. -/
def listEqCI : List Char → List Char → Bool
  | [], [] => true
  | a :: as, b :: bs => chEqCI a b && listEqCI as bs
  | _, _ => false

/-- Modelled from the spec: the header map offers case-insensitive lookup
("string keys, case-insensitive lookup"; the concrete HTTPHeaderDict class
is outside the sources).  Returns the first value whose key matches up to
ASCII case. -/
def headersGet (h : Headers) (k : String) : Option String :=
  (h.find? (fun p => listEqCI p.1.toList k.toList)).map Prod.snd

/-- Whitespace characters stripped by Python's `str.strip` and `int(str)`
(ASCII subset). -/
def pySpace (c : Char) : Bool :=
  c = ' ' || c = '\t' || c = '\n' || c = '\r'

/-- Strip `pySpace` characters from both ends of a character list. -/
def trimChars (cs : List Char) : List Char :=
  ((cs.dropWhile pySpace).reverse.dropWhile pySpace).reverse

/-- Embeds Python's `str.split(",")`: splits at every comma, keeping empty
segments, and never returns the empty list (`"".split(",") == [""]`). -/
def splitOnComma : List Char → List (List Char)
  | [] => [[]]
  | c :: rest =>
    if c = ',' then [] :: splitOnComma rest
    else
      match splitOnComma rest with
      | g :: gs => (c :: g) :: gs
      | [] => [[c]]

/-- Modelled from the spec: `self.chunked` of the base response class (not
in the sources) is true when a chunked `Transfer-Encoding` is present,
i.e. when one of the comma-separated, whitespace-trimmed tokens of the
`Transfer-Encoding` header equals "chunked" up to ASCII case. -/
def chunkedTE (h : Headers) : Bool :=
  match headersGet h "transfer-encoding" with
  | none => false
  | some v =>
    (splitOnComma v.toList).any
      (fun t => listEqCI (trimChars t) "chunked".toList)

/-- Digit-run value for Python's `int(str)`: after an initial digit,
an underscore may appear only between two digits (`1_0` is legal,
`1__0`, `1_` are not). -/
def digitsAux : Nat → List Char → Option Nat
  | acc, [] => some acc
  | acc, c :: rest =>
    if c.isDigit then digitsAux (acc * 10 + (c.toNat - 48)) rest
    else if c = '_' then
      match rest with
      | d :: rest' =>
        if d.isDigit then digitsAux (acc * 10 + (d.toNat - 48)) rest' else none
      | [] => none
    else none

/-- A nonempty digit run (underscore-aware), starting with a digit. -/
def digitsVal : List Char → Option Nat
  | [] => none
  | c :: rest => if c.isDigit then digitsAux (c.toNat - 48) rest else none

/-- Embeds Python's `int(str)` on ASCII input: optional surrounding
whitespace, an optional sign, then a digit run; `none` is a ValueError. -/
def pyIntC (cs : List Char) : Option Int :=
  match trimChars cs with
  | [] => none
  | c :: rest =>
    if c = '+' then (digitsVal rest).map Int.ofNat
    else if c = '-' then (digitsVal rest).map (fun n => -(Int.ofNat n))
    else (digitsVal (c :: rest)).map Int.ofNat

/-- Embeds the `try`/`except`/`else` block of `_init_length`
(lines 87-104): each comma-separated `Content-Length` value is parsed
with `int`; any ValueError is caught and the candidate length becomes
`none`.  The source builds a set of the parsed values and executes
`raise InvalidHeader(...)` when `len(set) > 1`; "more than one distinct
value" is embedded as "not all parsed values equal the first"
(equivalent), and because the name `InvalidHeader` is unbound in the
module, the raise line itself raises a NameError — which is not a
ValueError, so the `except` clause does not catch it and it escapes
(upstream intent is an InvalidHeader exception; a hard failure either
way).  A single negative value becomes `none` via the `else` clause. -/
def parseCL (cl : String) : Except PyErr (Option Int) :=
  let parsed := (splitOnComma cl.toList).map pyIntC
  if parsed.any Option.isNone then Except.ok none
  else
    match parsed with
    | [] => Except.ok none
    | p :: rest =>
      if rest.all (· == p) then
        match p with
        | some v => Except.ok (if v < 0 then none else some v)
        | none => Except.ok none
      else Except.error (PyErr.nameError "InvalidHeader")

/-- The override test of line 117: `status in (204, 304) or
100 <= status < 200 or request_method == "HEAD"`. -/
def bodyForbidden (status : Int) (request_method : Option String) : Prop :=
  status = 204 ∨ status = 304 ∨ (100 ≤ status ∧ status < 200) ∨
    request_method = some "HEAD"

instance (status : Int) (m : Option String) :
    Decidable (bodyForbidden status m) := by
  unfold bodyForbidden
  infer_instance

/-- Embeds `EmscriptenHttpResponseWrapper._init_length` (lines 69-120):
* `content-length` absent: candidate length `none`;
* present and `self.chunked`: the source calls `log.warning(...)`, but
  the name `log` is unbound in the module, so a NameError is raised
  before the `return None` on line 85 can run;
* otherwise the values are parsed by `parseCL`;
* finally the body-forbidding override (line 117): status 204/304, an
  informational status, or request method "HEAD" force the length to 0.
  `int(self.status)` on line 112 is the identity because the status is
  already an integer here, so the `except ValueError` fallback to 0 is
  dead code and not modelled.

Note the chunked branch and an escaping `parseCL` exception return/raise
before the override is reached.  The error value, when any, names the
unbound identifier that Python would report. -/
def _init_length (h : Headers) (status : Int) (request_method : Option String) :
    Except PyErr (Option Int) :=
  let step : Except PyErr (Option Int) :=
    match headersGet h "content-length" with
    | none => Except.ok none
    | some cl =>
      if chunkedTE h then Except.error (PyErr.nameError "log")
      else parseCL cl
  match step with
  | Except.error e => Except.error e
  | Except.ok length =>
    if bodyForbidden status request_method then Except.ok (some 0)
    else Except.ok length

/-- Embeds `EmscriptenRequest` to the extent the wrapper uses it (the
originating method and target URL). -/
structure EmscriptenRequest where
  method : String
  url : String
  deriving Repr, DecidableEq

/-- The body of an `EmscriptenResponse`: either still-buffered bytes or a
pull stream (the `IOBase` case); the stream is represented by its not yet
consumed bytes.  Bytes are `Nat` byte values. -/
inductive BodyRep where
  | buffer (bs : List Nat)
  | stream (rest : List Nat)
  deriving Repr, DecidableEq

/-- Embeds the `EmscriptenResponse` dataclass (lines 16-21). -/
structure EmscriptenResponse where
  status_code : Int
  headers : Headers
  body : BodyRep
  request : EmscriptenRequest
  deriving Repr, DecidableEq

/-- Embeds a retry-history entry: the wrapper only reads
`redirect_location` (which may be `None`). -/
structure RequestHistory where
  redirect_location : Option String
  deriving Repr, DecidableEq

/-- Embeds the `Retry` object to the extent the wrapper uses it: its
`history` tuple. -/
structure Retry where
  history : List RequestHistory
  deriving Repr, DecidableEq

/-- The mutable state of an `EmscriptenHttpResponseWrapper`:
* `bodyRep` — `self._response.body` (buffer or stream);
* `lengthRemaining` — `self.length_remaining` (`none` is Python `None`);
* `cachedBody` — `self._body` (`none` is Python `None`);
* `pool`, `connection` — `self._pool` and `self._connection`;
* `poolPuts` — the connections the pool has received via `_put_conn`
  (the Connection Release Hook's observable effect);
* `streamReads` — how many times `self._response.body.read` has run
  (observation counter for "underlying stream read passes");
* `url`, `retriesField` — `self._url` and `self._retries`. -/
structure RState where
  bodyRep : BodyRep
  lengthRemaining : Option Int
  cachedBody : Option (List Nat)
  pool : Option Unit
  connection : Option Nat
  poolPuts : List Nat
  streamReads : Nat
  url : Option String
  retriesField : Option Retry
  deriving Repr, DecidableEq

/-- A wrapper freshly holding body `bs` as still-buffered bytes, with no
cache, pool, or connection. -/
def freshState (bs : List Nat) : RState :=
  { bodyRep := BodyRep.buffer bs
    lengthRemaining := none
    cachedBody := none
    pool := none
    connection := none
    poolPuts := []
    streamReads := 0
    url := none
    retriesField := none }

/-- Embeds `__init__` (lines 25-44).  Lines 31-43 set plain fields, but
line 44 runs `self._init_length()` while `_init_length` (line 69)
requires the positional argument `request_method`; Python raises
TypeError there, so construction never completes. -/
def wrapperInit (_internal : EmscriptenResponse) (_url : Option String)
    (_conn : Option Nat) : Except PyErr RState :=
  Except.error (PyErr.typeError
    "_init_length() missing 1 required positional argument: request_method")

/-- Embeds lines 129-132 of `read`: a still-buffered body is promoted to a
stream seeded with the buffered bytes, and `self.length_remaining` is
overwritten with the buffer's length.  A stream body is left unchanged. -/
def wrapBody (s : RState) : RState :=
  match s.bodyRep with
  | BodyRep.buffer bs =>
    { s with lengthRemaining := some (bs.length : Int),
             bodyRep := BodyRep.stream bs }
  | BodyRep.stream _ => s

/-- The bytes the body representation still holds. -/
def streamRest (s : RState) : List Nat :=
  match s.bodyRep with
  | BodyRep.buffer bs => bs
  | BodyRep.stream rest => rest

/-- The guarded counter update of lines 137-138 and 144-145:
`if self.length_remaining > 0: self.length_remaining =
max(self.length_remaining - len(data), 0)` for a tracked counter `lr`
and `k` bytes just read. -/
def lrAfter (lr : Int) (k : Nat) : Int :=
  if 0 < lr then max (lr - (k : Int)) 0 else lr

/-- Embeds `read` (lines 123-146).  `decode_content` is ignored by the
source.  With `amt = some n` the source reads up to `n` bytes, updates
`length_remaining`, and then executes `return typing.cast(bytes, read_data)`
— but `read_data` is an unbound name, so a NameError escapes after the
state was already mutated.  With `amt = none` the whole remaining stream
is read and, if `cache_content`, stored in `self._body` before the
`length_remaining` update.  In both branches the source guards the update
with `self.length_remaining > 0`; when `length_remaining` is `None`,
Python raises TypeError at that comparison. -/
def read (s0 : RState) (amt : Option Nat) (cache_content : Bool) :
    Except PyErr (List Nat) × RState :=
  let s := wrapBody s0
  let bs := streamRest s
  match amt with
  | some n =>
    match s.lengthRemaining with
    | none =>
      (Except.error (PyErr.typeError "NoneType gt int"),
       { s with bodyRep := BodyRep.stream (bs.drop n),
                streamReads := s.streamReads + 1 })
    | some lr =>
      (Except.error (PyErr.nameError "read_data"),
       { s with bodyRep := BodyRep.stream (bs.drop n),
                streamReads := s.streamReads + 1,
                lengthRemaining := some (lrAfter lr (bs.take n).length) })
  | none =>
    match s.lengthRemaining with
    | none =>
      (Except.error (PyErr.typeError "NoneType gt int"),
       { s with bodyRep := BodyRep.stream [],
                streamReads := s.streamReads + 1,
                cachedBody := if cache_content then some bs else s.cachedBody })
    | some lr =>
      (Except.ok bs,
       { s with bodyRep := BodyRep.stream [],
                streamReads := s.streamReads + 1,
                cachedBody := if cache_content then some bs else s.cachedBody,
                lengthRemaining := some (lrAfter lr bs.length) })

/-- Embeds the `read_chunked` generator (lines 148-157) pulled to
exhaustion: it repeatedly calls `self.read(amt, decode_content)`
(so with `cache_content = False`), stops without yielding on the first
empty read, and otherwise yields the chunk.  `fuel` bounds the number of
loop iterations; the loop itself exits as soon as a read is empty or
raises. -/
def readChunkedFuel : Nat → RState → Option Nat →
    Except PyErr (List (List Nat)) × RState
  | 0, s, _ => (Except.ok [], s)
  | Nat.succ k, s, amt =>
    match read s amt false with
    | (Except.error e, s') => (Except.error e, s')
    | (Except.ok data, s') =>
      if data = [] then (Except.ok [], s')
      else
        match readChunkedFuel k s' amt with
        | (Except.ok chunks, s'') => (Except.ok (data :: chunks), s'')
        | (Except.error e, s'') => (Except.error e, s'')

/-- Embeds `release_conn` (lines 159-164): no-op unless both a pool and a
connection are held; otherwise the connection goes to the pool via
`_put_conn` and the handle is cleared. -/
def release_conn (s : RState) : RState :=
  match s.pool, s.connection with
  | some _, some c =>
    { s with poolPuts := s.poolPuts ++ [c], connection := none }
  | _, _ => s

/-- Embeds the `data` property (lines 169-174): Python truthiness on
`self._body`, so both `None` and the cached empty bytes fall through to
`self.read(cache_content=True)`. -/
def dataAcc (s : RState) : Except PyErr (List Nat) × RState :=
  match s.cachedBody with
  | some b => if b ≠ [] then (Except.ok b, s) else read s none true
  | none => read s none true

/-- Embeds the `retries` setter (lines 62-67): when the new value is not
`None` and its history is truthy (nonempty), `self.url` is set to the
last history entry's `redirect_location`; then `self._retries` is always
assigned. -/
def setRetries (s : RState) (r : Option Retry) : RState :=
  let s1 :=
    match r with
    | some rr =>
      match rr.history.getLast? with
      | some e => { s with url := e.redirect_location }
      | none => s
    | none => s
  { s1 with retriesField := r }

/-- Run a sequence of `read` calls (amount, cache_content), keeping only
the final state; each call's state effects persist even if it raised. -/
def runReads : RState → List (Option Nat × Bool) → RState
  | s, [] => s
  | s, a :: rest => runReads (read s a.1 a.2).2 rest

/-- `true` when every `read` call in the sequence returns successfully. -/
def readsOkB : RState → List (Option Nat × Bool) → Bool
  | _, [] => true
  | s, a :: rest =>
    match read s a.1 a.2 with
    | (Except.ok _, s') => readsOkB s' rest
    | (Except.error _, _) => false

/-- A UTF-8 continuation byte. -/
def isCont (b : Nat) : Bool := 0x80 ≤ b && b ≤ 0xBF

/-- Valid second byte of a three-byte UTF-8 sequence headed by `b`
(excludes overlong encodings and surrogate code points, as Python's
strict "utf-8" codec does). -/
def cont3 (b c1 : Nat) : Bool :=
  if b = 0xE0 then 0xA0 ≤ c1 && c1 ≤ 0xBF
  else if b = 0xED then 0x80 ≤ c1 && c1 ≤ 0x9F
  else isCont c1

/-- Valid second byte of a four-byte UTF-8 sequence headed by `b`
(excludes overlong encodings and code points above U+10FFFF). -/
def cont4 (b c1 : Nat) : Bool :=
  if b = 0xF0 then 0x90 ≤ c1 && c1 ≤ 0xBF
  else if b = 0xF4 then 0x80 ≤ c1 && c1 ≤ 0x8F
  else isCont c1

/-- Modelled from the spec: `bytes.decode("utf-8")` (the Python stdlib
decoder, outside the sources) — "decodes `data` as UTF-8 text and parses
it as JSON; fails with a DecodeError if the bytes are not valid UTF-8".
Strict UTF-8: rejects stray continuation bytes, overlong forms,
surrogates and values above U+10FFFF.  Returns the code points. -/
def utf8Decode : List Nat → Option (List Nat)
  | [] => some []
  | b :: rest =>
    if b ≤ 0x7F then (utf8Decode rest).map (fun cs => b :: cs)
    else if b ≤ 0xC1 then none
    else if b ≤ 0xDF then
      match rest with
      | c1 :: r =>
        if isCont c1 then
          (utf8Decode r).map (fun cs => ((b - 0xC0) * 0x40 + (c1 - 0x80)) :: cs)
        else none
      | [] => none
    else if b ≤ 0xEF then
      match rest with
      | c1 :: c2 :: r =>
        if cont3 b c1 && isCont c2 then
          (utf8Decode r).map (fun cs =>
            ((b - 0xE0) * 0x1000 + (c1 - 0x80) * 0x40 + (c2 - 0x80)) :: cs)
        else none
      | _ => none
    else if b ≤ 0xF4 then
      match rest with
      | c1 :: c2 :: c3 :: r =>
        if cont4 b c1 && isCont c2 && isCont c3 then
          (utf8Decode r).map (fun cs =>
            ((b - 0xF0) * 0x40000 + (c1 - 0x80) * 0x1000 +
             (c2 - 0x80) * 0x40 + (c3 - 0x80)) :: cs)
        else none
      | _ => none
    else none

/-- JSON whitespace (space, tab, newline, carriage return). -/
def jWs (c : Nat) : Bool := c = 32 || c = 9 || c = 10 || c = 13

/-- Drop leading JSON whitespace from a code-point list. -/
def skipWs (l : List Nat) : List Nat := l.dropWhile jWs

/-- An ASCII digit code point. -/
def isDigitC (c : Nat) : Bool := 48 ≤ c && c ≤ 57

/-- Modelled from the spec: the value returned by the JSON parser
("parses it as JSON").  Strings and object keys are code-point lists;
numbers keep sign, integer part, fraction digits and exponent
symbolically. -/
inductive JsonVal where
  | jnull
  | jbool (b : Bool)
  | jnum (neg : Bool) (ip : Nat) (frac : List Nat) (eneg : Bool) (ev : Nat)
  | jstr (cs : List Nat)
  | jarr (xs : List JsonVal)
  | jobj (fields : List (List Nat × JsonVal))

/-- Hexadecimal digit value of a code point, for `\u` escapes. -/
def hexVal (c : Nat) : Option Nat :=
  if 48 ≤ c && c ≤ 57 then some (c - 48)
  else if 97 ≤ c && c ≤ 102 then some (c - 87)
  else if 65 ≤ c && c ≤ 70 then some (c - 55)
  else none

/-- Parse the remainder of a JSON string literal (the opening quote is
already consumed): handles the escapes of the JSON grammar and rejects
unescaped control characters.  Returns the content and the input after
the closing quote. -/
def parseStrAux : List Nat → Option (List Nat × List Nat)
  | [] => none
  | 34 :: r => some ([], r)
  | 92 :: e :: r =>
    if e = 34 || e = 92 || e = 47 then
      (parseStrAux r).map (fun p => (e :: p.1, p.2))
    else if e = 98 then (parseStrAux r).map (fun p => (8 :: p.1, p.2))
    else if e = 102 then (parseStrAux r).map (fun p => (12 :: p.1, p.2))
    else if e = 110 then (parseStrAux r).map (fun p => (10 :: p.1, p.2))
    else if e = 114 then (parseStrAux r).map (fun p => (13 :: p.1, p.2))
    else if e = 116 then (parseStrAux r).map (fun p => (9 :: p.1, p.2))
    else if e = 117 then
      match r with
      | c1 :: c2 :: c3 :: c4 :: r' =>
        match hexVal c1, hexVal c2, hexVal c3, hexVal c4 with
        | some h1, some h2, some h3, some h4 =>
          (parseStrAux r').map (fun p =>
            ((h1 * 4096 + h2 * 256 + h3 * 16 + h4) :: p.1, p.2))
        | _, _, _, _ => none
      | _ => none
    else none
  | c :: r =>
    if c < 32 then none else (parseStrAux r).map (fun p => (c :: p.1, p.2))

/-- Longest leading run of ASCII digits and the remaining input. -/
def digitSpan (l : List Nat) : List Nat × List Nat :=
  (l.takeWhile isDigitC, l.dropWhile isDigitC)

/-- Numeric value of a digit run. -/
def digitsValue (ds : List Nat) : Nat :=
  ds.foldl (fun acc d => acc * 10 + (d - 48)) 0

/-- Parse a JSON number at the head of the input, per the JSON grammar:
optional minus, `0` or a nonzero-led digit run, optional fraction,
optional exponent. -/
def parseNumber (l : List Nat) : Option (JsonVal × List Nat) :=
  let (neg, l1) := match l with | 45 :: t => (true, t) | _ => (false, l)
  let ipPart : Option (List Nat × List Nat) :=
    match l1 with
    | 48 :: t => some ([48], t)
    | c :: _ => if isDigitC c then some (digitSpan l1) else none
    | [] => none
  match ipPart with
  | none => none
  | some (ip, l2) =>
    let fracPart : Option (List Nat × List Nat) :=
      match l2 with
      | 46 :: t =>
        let (ds, rest) := digitSpan t
        if ds = [] then none else some (ds, rest)
      | _ => some ([], l2)
    match fracPart with
    | none => none
    | some (frac, l3) =>
      let expPart : Option (Bool × Nat × List Nat) :=
        match l3 with
        | c :: t =>
          if c = 101 || c = 69 then
            let (eneg, t1) :=
              match t with
              | 45 :: t' => (true, t')
              | 43 :: t' => (false, t')
              | _ => (false, t)
            let (ds, rest) := digitSpan t1
            if ds = [] then none else some (eneg, digitsValue ds, rest)
          else some (false, 0, l3)
        | [] => some (false, 0, l3)
      match expPart with
      | none => none
      | some (eneg, ev, l4) =>
        some (JsonVal.jnum neg (digitsValue ip) frac eneg ev, l4)

mutual

/-- Modelled from the spec: a recursive-descent JSON value parser standing
in for `json.loads` (Python stdlib, outside the sources).  `fuel` bounds
the recursion depth; `jsonParse` supplies more than enough for its
input. -/
def parseVal : Nat → List Nat → Option (JsonVal × List Nat)
  | 0, _ => none
  | Nat.succ k, l =>
    match skipWs l with
    | [] => none
    | c :: r =>
      if c = 110 then
        match r with
        | 117 :: 108 :: 108 :: r' => some (JsonVal.jnull, r')
        | _ => none
      else if c = 116 then
        match r with
        | 114 :: 117 :: 101 :: r' => some (JsonVal.jbool true, r')
        | _ => none
      else if c = 102 then
        match r with
        | 97 :: 108 :: 115 :: 101 :: r' => some (JsonVal.jbool false, r')
        | _ => none
      else if c = 34 then
        (parseStrAux r).map (fun p => (JsonVal.jstr p.1, p.2))
      else if c = 91 then
        match skipWs r with
        | 93 :: r' => some (JsonVal.jarr [], r')
        | r1 => (parseItems k r1).map (fun p => (JsonVal.jarr p.1, p.2))
      else if c = 123 then
        match skipWs r with
        | 125 :: r' => some (JsonVal.jobj [], r')
        | r1 => (parseFields k r1).map (fun p => (JsonVal.jobj p.1, p.2))
      else if c = 45 || isDigitC c then parseNumber (c :: r)
      else none

/-- Array elements after `[`, up to and including `]`. -/
def parseItems : Nat → List Nat → Option (List JsonVal × List Nat)
  | 0, _ => none
  | Nat.succ k, l =>
    match parseVal k l with
    | none => none
    | some (v, r) =>
      match skipWs r with
      | 44 :: r' => (parseItems k r').map (fun p => (v :: p.1, p.2))
      | 93 :: r' => some ([v], r')
      | _ => none

/-- Object members after an opening brace, up to and including the
closing brace. -/
def parseFields : Nat → List Nat →
    Option (List (List Nat × JsonVal) × List Nat)
  | 0, _ => none
  | Nat.succ k, l =>
    match skipWs l with
    | 34 :: r =>
      match parseStrAux r with
      | none => none
      | some (key, r1) =>
        match skipWs r1 with
        | 58 :: r2 =>
          match parseVal k r2 with
          | none => none
          | some (v, r3) =>
            match skipWs r3 with
            | 44 :: r4 =>
              (parseFields k r4).map (fun p => ((key, v) :: p.1, p.2))
            | 125 :: r4 => some ([(key, v)], r4)
            | _ => none
        | _ => none
    | _ => none

end

/-- Modelled from the spec: `json.loads` on the decoded text — parse one
JSON value, allow surrounding whitespace, and fail on trailing data.
`none` is a json.JSONDecodeError. -/
def jsonParse (cps : List Nat) : Option JsonVal :=
  match parseVal (2 * cps.length + 2) cps with
  | some (v, r) => if skipWs r = [] then some v else none
  | none => none

/-- Embeds the `json` method (lines 176-187):
`data = self.data.decode("utf-8"); return _json.loads(data)` — no
try/except, so a UnicodeDecodeError from `decode` and a JSONDecodeError
from `loads` both propagate to the caller unchanged. -/
def jsonMethod (s : RState) : Except PyErr JsonVal × RState :=
  match dataAcc s with
  | (Except.error e, s') => (Except.error e, s')
  | (Except.ok d, s') =>
    match utf8Decode d with
    | none => (Except.error PyErr.unicodeDecodeError, s')
    | some cps =>
      match jsonParse cps with
      | none => (Except.error PyErr.jsonDecodeError, s')
      | some v => (Except.ok v, s')

/-! Supporting lemmas. -/

theorem splitOnComma_ne_nil (l : List Char) : splitOnComma l ≠ [] := by
  induction l with
  | nil => simp [splitOnComma]
  | cons c rest ih =>
    simp only [splitOnComma]
    split
    · simp
    · cases h : splitOnComma rest with
      | nil => simp
      | cons g gs => simp

/-- When every comma-separated value parses to the same integer `v`, the
Content-Length parse succeeds with `v` (or `none` when `v` is negative). -/
theorem parseCL_all_eq (cl : String) (v : Int)
    (hall : ∀ x ∈ splitOnComma cl.toList, pyIntC x = some v) :
    parseCL cl = Except.ok (if v < 0 then none else some v) := by
  unfold parseCL
  cases hsplit : splitOnComma cl.toList with
  | nil => exact absurd hsplit (splitOnComma_ne_nil _)
  | cons q qs =>
    rw [hsplit] at hall
    have hq : pyIntC q = some v := hall q (List.mem_cons_self q qs)
    have hany : ((q :: qs).map pyIntC).any Option.isNone = false := by
      rw [List.any_eq_false]
      intro o ho
      rw [List.mem_map] at ho
      obtain ⟨x, hx, rfl⟩ := ho
      rw [hall x hx]
      simp
    have hrest : (qs.map pyIntC).all (· == pyIntC q) = true := by
      rw [List.all_eq_true]
      intro o ho
      rw [List.mem_map] at ho
      obtain ⟨x, hx, rfl⟩ := ho
      rw [hall x (List.mem_cons_of_mem q hx), hq]
      simp
    rw [List.map_cons] at hany
    rw [List.map_cons]
    dsimp only
    rw [hany, hrest, hq]
    rfl

/-- When some comma-separated value fails to parse as an integer, the
ValueError is caught and the parse yields an unknown length. -/
theorem parseCL_has_none (cl : String)
    (hex : ∃ x ∈ splitOnComma cl.toList, pyIntC x = none) :
    parseCL cl = Except.ok none := by
  unfold parseCL
  obtain ⟨x, hx, hxn⟩ := hex
  have hany : ((splitOnComma cl.toList).map pyIntC).any Option.isNone = true := by
    rw [List.any_eq_true]
    exact ⟨pyIntC x, List.mem_map_of_mem pyIntC hx, by rw [hxn]; rfl⟩
  dsimp only
  rw [hany]
  rfl

/-- When all values parse but two of them differ, the parse raises
(the source's `raise InvalidHeader(...)` line, whose unbound name
produces a NameError). -/
theorem parseCL_mismatch (cl : String) (a b : Int) (hab : a ≠ b)
    (ha : ∃ x ∈ splitOnComma cl.toList, pyIntC x = some a)
    (hb : ∃ y ∈ splitOnComma cl.toList, pyIntC y = some b)
    (hnone : ∀ x ∈ splitOnComma cl.toList, pyIntC x ≠ none) :
    parseCL cl = Except.error (PyErr.nameError "InvalidHeader") := by
  unfold parseCL
  cases hsplit : splitOnComma cl.toList with
  | nil => exact absurd hsplit (splitOnComma_ne_nil _)
  | cons q qs =>
    rw [hsplit] at ha hb hnone
    have hany : ((q :: qs).map pyIntC).any Option.isNone = false := by
      rw [List.any_eq_false]
      intro o ho
      rw [List.mem_map] at ho
      obtain ⟨x, hx, rfl⟩ := ho
      cases hox : pyIntC x with
      | none => exact absurd hox (hnone x hx)
      | some w => simp
    obtain ⟨w, hqw⟩ : ∃ w, pyIntC q = some w := by
      cases hq : pyIntC q with
      | none => exact absurd hq (hnone q (List.mem_cons_self q qs))
      | some w => exact ⟨w, rfl⟩
    have key : ∀ c : Int, c ≠ w → (∃ x ∈ q :: qs, pyIntC x = some c) →
        (qs.map pyIntC).all (· == pyIntC q) = false := by
      intro c hcw ⟨x, hx, hxc⟩
      rcases List.mem_cons.mp hx with hxq | hxqs
      · subst hxq
        rw [hxc] at hqw
        exact absurd (Option.some.inj hqw) hcw
      · rw [List.all_eq_false]
        refine ⟨pyIntC x, List.mem_map_of_mem pyIntC hxqs, ?_⟩
        rw [hxc, hqw]
        simp [hcw]
    have hallf : (qs.map pyIntC).all (· == pyIntC q) = false := by
      by_cases haw : a = w
      · subst haw
        exact key b (fun hbw => hab (hbw ▸ rfl)) hb
      · exact key a haw ha
    rw [List.map_cons] at hany
    rw [List.map_cons]
    dsimp only
    rw [hany, hallf]
    rfl

/-- Unfolding `_init_length` when a Content-Length value is present and
the transfer encoding is not chunked. -/
theorem _init_length_of_cl (h : Headers) (cl : String) (status : Int)
    (m : Option String) (hcl : headersGet h "content-length" = some cl)
    (hch : chunkedTE h = false) :
    _init_length h status m =
      match parseCL cl with
      | Except.error e => Except.error e
      | Except.ok length =>
        if bodyForbidden status m then Except.ok (some 0)
        else Except.ok length := by
  unfold _init_length
  rw [hcl, hch]
  simp

/-! Claim C1. -/

/-- C1, counterexample.  The claim says that comma-separated
`Content-Length` values that disagree make the resolver return unknown
length (`None`) with a warning and no hard failure, body reading then
streaming to EOF.  On `Content-Length: 42, 43` the code instead raises
(the `raise InvalidHeader` line, a NameError here because the name is
unbound) — a hard failure, not `None`; and with an unknown length, a
`read` on a stream body raises TypeError at the `length_remaining > 0`
comparison with `None` instead of streaming to EOF. -/
theorem c1_counterexample :
    _init_length [("Content-Length", "42, 43")] 200 none
        = Except.error (PyErr.nameError "InvalidHeader") ∧
    _init_length [("Content-Length", "42, 43")] 200 none ≠ Except.ok none ∧
    (read ⟨BodyRep.stream [1, 2, 3], none, none, none, none, [], 0, none, none⟩
        none false).1 = Except.error (PyErr.typeError "NoneType gt int") :=
  ⟨by decide, by decide, by decide⟩

/-- C1, amended.  For a header map with a `Content-Length` value, no
chunked `Transfer-Encoding`, and no body-forbidding status/method
override: (1) if every comma-separated value parses to the same
non-negative integer `v`, the resolver returns `some v`; (2) if any
value fails to parse as an integer, the resolver returns unknown length
(`none`), silently; (3) if all values parse but two disagree, the
resolver raises (the `raise InvalidHeader` line; NameError here because
the name is unbound) — a hard failure. -/
theorem c1_amended (h : Headers) (cl : String) (status : Int)
    (m : Option String) (hcl : headersGet h "content-length" = some cl)
    (hch : chunkedTE h = false) (hover : ¬bodyForbidden status m) :
    ((∀ v : Int, 0 ≤ v → (∀ x ∈ splitOnComma cl.toList, pyIntC x = some v) →
        _init_length h status m = Except.ok (some v)) ∧
     ((∃ x ∈ splitOnComma cl.toList, pyIntC x = none) →
        _init_length h status m = Except.ok none) ∧
     (∀ a b : Int, a ≠ b →
        (∃ x ∈ splitOnComma cl.toList, pyIntC x = some a) →
        (∃ y ∈ splitOnComma cl.toList, pyIntC y = some b) →
        (∀ x ∈ splitOnComma cl.toList, pyIntC x ≠ none) →
        _init_length h status m
          = Except.error (PyErr.nameError "InvalidHeader"))) := by
  rw [_init_length_of_cl h cl status m hcl hch]
  refine ⟨?_, ?_, ?_⟩
  · intro v hv hall
    rw [parseCL_all_eq cl v hall]
    rw [if_neg (by omega : ¬v < 0)]
    simp [if_neg hover]
  · intro hex
    rw [parseCL_has_none cl hex]
    simp [if_neg hover]
  · intro a b hab ha hb hnone
    rw [parseCL_mismatch cl a b hab ha hb hnone]

/-- Witness for C1: `Content-Length: 42, 42` with status 200 and no
request method resolves to 42. -/
theorem c1_amended_witness :
    _init_length [("Content-Length", "42, 42")] 200 none
      = Except.ok (some 42) :=
  (c1_amended [("Content-Length", "42, 42")] "42, 42" 200 none (by decide)
      (by decide) (by decide)).1 42 (by decide) (by decide)

/-! Claim C2. -/

/-- C2.  When both a `Content-Length` header and a chunked
`Transfer-Encoding` are present, the source means to warn and return
`None`, but the warning call `log.warning(...)` references the unbound
name `log`, so the resolver raises a NameError instead of returning:
the conflict path never completes without an error. -/
theorem c2_chunked_conflict_raises (h : Headers) (cl : String) (status : Int)
    (m : Option String) (hcl : headersGet h "content-length" = some cl)
    (hch : chunkedTE h = true) :
    _init_length h status m = Except.error (PyErr.nameError "log") := by
  unfold _init_length
  rw [hcl, hch]
  simp

/-- Witness for C2 at a concrete conflicting header map. -/
theorem c2_chunked_conflict_raises_witness :
    _init_length [("Content-Length", "42"), ("Transfer-Encoding", "chunked")]
        200 none = Except.error (PyErr.nameError "log") :=
  c2_chunked_conflict_raises _ "42" 200 none (by decide) (by decide)

/-! Claim C3. -/

/-- C3, counterexample.  The claim says the `Some(0)` override applies
"regardless of the headers" and that the constructor passes the actual
request method into length resolution.  At status 204 with request
method HEAD but headers carrying both `Content-Length` and chunked
`Transfer-Encoding`, the resolver raises on the chunked branch before
the override is reached (so the result is not `Some(0)`); and the
constructor as written calls `self._init_length()` without the required
`request_method` argument, raising TypeError. -/
theorem c3_counterexample :
    _init_length [("Content-Length", "5"), ("Transfer-Encoding", "chunked")]
        204 (some "HEAD") = Except.error (PyErr.nameError "log") ∧
    _init_length [("Content-Length", "5"), ("Transfer-Encoding", "chunked")]
        204 (some "HEAD") ≠ Except.ok (some 0) ∧
    wrapperInit ⟨204, [("Content-Length", "5")], BodyRep.buffer [],
        ⟨"HEAD", ""⟩⟩ none none
      = Except.error (PyErr.typeError
          "_init_length() missing 1 required positional argument: request_method") :=
  ⟨by decide, by decide, by decide⟩

/-- C3, amended.  The `Some(0)` override for status 204/304,
informational statuses, and request method HEAD holds whenever the
resolver reaches its final override test: `Content-Length` absent, or
present without chunked `Transfer-Encoding` and with values that either
contain an unparseable one or all parse to one common integer.  (When
chunked is also present, or the parsed values disagree, the resolver
raises before the override; and the constructor as written never
supplies the request method — it raises TypeError.) -/
theorem c3_amended (h : Headers) (status : Int) (m : Option String)
    (hover : bodyForbidden status m)
    (hreach : match headersGet h "content-length" with
              | none => True
              | some cl => chunkedTE h = false ∧
                  ((∃ x ∈ splitOnComma cl.toList, pyIntC x = none) ∨
                   (∃ v : Int, ∀ x ∈ splitOnComma cl.toList,
                      pyIntC x = some v))) :
    _init_length h status m = Except.ok (some 0) := by
  cases hcl : headersGet h "content-length" with
  | none =>
    unfold _init_length
    rw [hcl]
    simp [if_pos hover]
  | some cl =>
    rw [hcl] at hreach
    obtain ⟨hch, hcase⟩ := hreach
    rw [_init_length_of_cl h cl status m hcl hch]
    rcases hcase with hex | ⟨v, hall⟩
    · rw [parseCL_has_none cl hex]
      simp [if_pos hover]
    · rw [parseCL_all_eq cl v hall]
      simp [if_pos hover]

/-- Witness for C3: status 204 with a plain `Content-Length: 5` resolves
to length 0. -/
theorem c3_amended_witness :
    _init_length [("Content-Length", "5")] 204 none = Except.ok (some 0) :=
  c3_amended [("Content-Length", "5")] 204 none (Or.inl rfl)
    (by exact ⟨by decide, Or.inr ⟨5, by decide⟩⟩)

/-! Compute lemmas for `read`. -/

/-- Resetting the counter to the byte count just read floors it at 0. -/
theorem lrAfter_len (k : Nat) : lrAfter (k : Int) k = 0 := by
  unfold lrAfter
  split
  · omega
  · omega

/-- A full read (`amt = None`) on a still-buffered body returns the whole
buffer: the buffer is wrapped, the counter is reset to the buffer length
and then decremented to zero by the read itself. -/
theorem read_none_buffer (s : RState) (bs : List Nat) (c : Bool)
    (hb : s.bodyRep = BodyRep.buffer bs) :
    read s none c =
      (Except.ok bs,
       { s with bodyRep := BodyRep.stream [],
                lengthRemaining := some 0,
                cachedBody := if c then some bs else s.cachedBody,
                streamReads := s.streamReads + 1 }) := by
  obtain ⟨b, lr0, cb, pl, cn, pp, sr, u, rf⟩ := s
  dsimp only at hb
  subst hb
  dsimp only [read, wrapBody, streamRest]
  rw [lrAfter_len]

/-- A full read (`amt = None`) on a stream body with a tracked counter
returns the remaining bytes and applies the guarded decrement. -/
theorem read_none_stream (s : RState) (l : List Nat) (v : Int) (c : Bool)
    (hb : s.bodyRep = BodyRep.stream l) (hlr : s.lengthRemaining = some v) :
    read s none c =
      (Except.ok l,
       { s with bodyRep := BodyRep.stream [],
                lengthRemaining := some (lrAfter v l.length),
                cachedBody := if c then some l else s.cachedBody,
                streamReads := s.streamReads + 1 }) := by
  obtain ⟨b, lr0, cb, pl, cn, pp, sr, u, rf⟩ := s
  dsimp only at hb hlr
  subst hb
  subst hlr
  rfl

/-- A full read on a stream body with an untracked counter mutates the
state and then raises TypeError at the `length_remaining > 0` guard. -/
theorem read_none_stream_untracked (s : RState) (l : List Nat) (c : Bool)
    (hb : s.bodyRep = BodyRep.stream l) (hlr : s.lengthRemaining = none) :
    (read s none c).1 = Except.error (PyErr.typeError "NoneType gt int") := by
  obtain ⟨b, lr0, cb, pl, cn, pp, sr, u, rf⟩ := s
  dsimp only at hb hlr
  subst hb
  subst hlr
  rfl

/-- Every read with an explicit amount raises: the `return` line names the
unbound `read_data` (or, with an untracked counter, the guard raises
TypeError first). -/
theorem read_amt_err (s : RState) (n : Nat) (c : Bool) :
    ∃ e, (read s (some n) c).1 = Except.error e := by
  obtain ⟨b, lr0, cb, pl, cn, pp, sr, u, rf⟩ := s
  rcases b with bs | l
  · exact ⟨PyErr.nameError "read_data", rfl⟩
  · rcases lr0 with _ | v
    · exact ⟨PyErr.typeError "NoneType gt int", rfl⟩
    · exact ⟨PyErr.nameError "read_data", rfl⟩

/-! Claim C5. -/

/-- C5.  With an empty body, the first `data` access reads the stream and
caches the empty result, but the truthiness test `if self._body:`
treats the cached empty bytes as absent, so the second `data` access
performs a second underlying stream read (`streamReads = 2`) instead of
returning the cache without touching the Body Source.  Both results are
still byte-identical. -/
theorem c5_data_empty_double_read :
    (dataAcc (freshState [])).1 = Except.ok [] ∧
    (dataAcc (freshState [])).2.cachedBody = some [] ∧
    (dataAcc ((dataAcc (freshState [])).2)).1 = Except.ok [] ∧
    (dataAcc ((dataAcc (freshState [])).2)).2.streamReads = 2 := by
  decide

/-! Claim C7. -/

/-- C7.  `release_conn` is a no-op without both a pool and a live
connection handle; otherwise the pool receives the held connection
exactly once and the handle is cleared, so a second call changes
nothing: two calls have the same effect as one. -/
theorem c7_release_conn (s : RState) :
    release_conn (release_conn s) = release_conn s ∧
    (release_conn s).poolPuts = s.poolPuts ++
      (match s.pool, s.connection with
       | some _, some c => [c]
       | _, _ => []) ∧
    (release_conn s).connection =
      (match s.pool, s.connection with
       | some _, some _ => none
       | _, _ => s.connection) ∧
    (release_conn s).bodyRep = s.bodyRep ∧
    (release_conn s).cachedBody = s.cachedBody ∧
    (release_conn s).lengthRemaining = s.lengthRemaining ∧
    ((s.pool = none ∨ s.connection = none) → release_conn s = s) := by
  rcases hp : s.pool with _ | p <;> rcases hc : s.connection with _ | c <;>
    simp [release_conn, hp, hc]

/-- Witness for C7: a concrete no-op case and a concrete released case. -/
theorem c7_release_conn_witness :
    release_conn (freshState [1]) = freshState [1] ∧
    release_conn (release_conn
        { freshState [] with pool := some (), connection := some 3 })
      = release_conn
        { freshState [] with pool := some (), connection := some 3 } :=
  ⟨(c7_release_conn (freshState [1])).2.2.2.2.2.2 (Or.inl rfl),
   (c7_release_conn _).1⟩

/-! Claim C10. -/

/-- C10.  The retries setter always stores the supplied value; it changes
`url` exactly when the value is non-`None` with a nonempty history (to
the last entry's redirect location) and leaves `url` alone otherwise;
every other field of the wrapper is untouched. -/
theorem c10_retries_setter (s : RState) (r : Option Retry) :
    (setRetries s r).retriesField = r ∧
    (∀ rr e, r = some rr → rr.history.getLast? = some e →
       (setRetries s r).url = e.redirect_location) ∧
    (r = none → (setRetries s r).url = s.url) ∧
    (∀ rr, r = some rr → rr.history = [] → (setRetries s r).url = s.url) ∧
    (setRetries s r).bodyRep = s.bodyRep ∧
    (setRetries s r).lengthRemaining = s.lengthRemaining ∧
    (setRetries s r).cachedBody = s.cachedBody ∧
    (setRetries s r).pool = s.pool ∧
    (setRetries s r).connection = s.connection ∧
    (setRetries s r).poolPuts = s.poolPuts ∧
    (setRetries s r).streamReads = s.streamReads := by
  rcases r with _ | rr
  · simp [setRetries]
  · cases hl : rr.history.getLast? with
    | none =>
      refine ⟨by simp [setRetries, hl], ?_, by simp, ?_, ?_⟩
      · intro rr' e hr he
        injection hr with hr
        subst hr
        rw [hl] at he
        exact absurd he (by simp)
      · intro rr' hr _
        injection hr with hr
        subst hr
        simp [setRetries, hl]
      · simp [setRetries, hl]
    | some e =>
      refine ⟨by simp [setRetries, hl], ?_, by simp, ?_, ?_⟩
      · intro rr' e' hr he
        injection hr with hr
        subst hr
        rw [hl] at he
        injection he with he
        subst he
        simp [setRetries, hl]
      · intro rr' hr hhist
        injection hr with hr
        subst hr
        rw [hhist] at hl
        exact absurd hl (by simp)
      · simp [setRetries, hl]

/-- Witness for C10: a concrete retries value with a two-entry history
redirects the url to the last entry's location and is stored. -/
theorem c10_retries_setter_witness :
    (setRetries { freshState [] with url := some "orig" }
        (some ⟨[⟨some "u1"⟩, ⟨some "u2"⟩]⟩)).url = some "u2" ∧
    (setRetries { freshState [] with url := some "orig" }
        (some ⟨[⟨some "u1"⟩, ⟨some "u2"⟩]⟩)).retriesField
      = some ⟨[⟨some "u1"⟩, ⟨some "u2"⟩]⟩ :=
  ⟨(c10_retries_setter { freshState [] with url := some "orig" }
      (some ⟨[⟨some "u1"⟩, ⟨some "u2"⟩]⟩)).2.1
      ⟨[⟨some "u1"⟩, ⟨some "u2"⟩]⟩ ⟨some "u2"⟩ rfl (by decide),
   (c10_retries_setter { freshState [] with url := some "orig" }
      (some ⟨[⟨some "u1"⟩, ⟨some "u2"⟩]⟩)).1⟩

/-! Claim C9. -/

/-- C9, counterexample.  With a resolver result of 3 but a 5-byte buffer,
the claim's reconciliation ("the smaller/earlier EOF always wins") would
cap the body at 3 bytes — but the code's full read returns all 5 bytes,
and the recorded baseline is the buffer length 5, not `min 5 3`. -/
theorem c9_counterexample :
    ({ freshState [1, 2, 3, 4, 5] with
        lengthRemaining := some 3 } : RState).lengthRemaining = some 3 ∧
    (read { freshState [1, 2, 3, 4, 5] with lengthRemaining := some 3 }
        none false).1 = Except.ok [1, 2, 3, 4, 5] ∧
    ([1, 2, 3, 4, 5] : List Nat).length = 5 ∧ ¬((5 : Int) ≤ 3) ∧
    (wrapBody { freshState [1, 2, 3, 4, 5] with lengthRemaining := some 3 }
      ).lengthRemaining = some 5 ∧
    some (5 : Int) ≠ some (min (5 : Int) 3) := by
  decide

/-- C9, amended.  On the first read of a buffered body the buffer is
wrapped into a stream seeded with those bytes exactly once (states whose
body is already a stream are never re-wrapped, and no read ever turns a
stream back into a buffer), and the buffer's length *replaces* the
resolver's result as the known-remaining baseline: no minimum is taken,
and a full read returns the whole buffer regardless of the declared
length. -/
theorem c9_amended (s : RState) (bs : List Nat)
    (hb : s.bodyRep = BodyRep.buffer bs) :
    (wrapBody s).lengthRemaining = some (bs.length : Int) ∧
    (wrapBody s).bodyRep = BodyRep.stream bs ∧
    (read s none false).1 = Except.ok bs ∧
    (read s none false).2.bodyRep = BodyRep.stream [] ∧
    (∀ (t : RState) (l : List Nat),
       t.bodyRep = BodyRep.stream l → wrapBody t = t) ∧
    (∀ (t : RState) (a : Option Nat) (c : Bool),
       ∃ l, ((read t a c).2).bodyRep = BodyRep.stream l) := by
  refine ⟨by simp [wrapBody, hb], by simp [wrapBody, hb], ?_, ?_, ?_, ?_⟩
  · rw [read_none_buffer s bs false hb]
  · rw [read_none_buffer s bs false hb]
  · intro t l ht
    unfold wrapBody
    rw [ht]
  · intro t a c
    obtain ⟨b, lr0, cb, pl, cn, pp, sr, u, rf⟩ := t
    rcases b with l | l <;> rcases a with _ | n
    · exact ⟨[], rfl⟩
    · exact ⟨l.drop n, rfl⟩
    · rcases lr0 with _ | v
      · exact ⟨[], rfl⟩
      · exact ⟨[], rfl⟩
    · rcases lr0 with _ | v
      · exact ⟨l.drop n, rfl⟩
      · exact ⟨l.drop n, rfl⟩

/-- Witness for C9 at a concrete buffered state. -/
theorem c9_amended_witness :
    (wrapBody (freshState [7, 8])).lengthRemaining = some 2 ∧
    (read (freshState [7, 8]) none false).1 = Except.ok [7, 8] :=
  ⟨(c9_amended (freshState [7, 8]) [7, 8] rfl).1,
   (c9_amended (freshState [7, 8]) [7, 8] rfl).2.2.1⟩

/-! Claim C4. -/

/-- The guarded update equals decrement-floored-at-zero once the counter
is non-negative. -/
theorem lrAfter_eq_max (v : Int) (k : Nat) (hnn : 0 ≤ v) :
    lrAfter v k = max (v - (k : Int)) 0 := by
  unfold lrAfter
  split
  · rfl
  · have hv0 : v = 0 := by omega
    subst hv0
    rw [max_eq_right (by omega : (0 : Int) - (k : Int) ≤ 0)]

/-- A successful read decrements the tracked counter (as it stands after
the potential buffer-wrap baseline reset) by the byte count read,
flooring at zero. -/
theorem read_ok_lr (s : RState) (a : Option Nat) (c : Bool) (d : List Nat)
    (s' : RState) (v : Int) (hok : read s a c = (Except.ok d, s'))
    (hv : (wrapBody s).lengthRemaining = some v) (hnn : 0 ≤ v) :
    s'.lengthRemaining = some (max (v - (d.length : Int)) 0) := by
  rcases a with _ | n
  · rcases hb : s.bodyRep with bs | l
    · rw [read_none_buffer s bs c hb] at hok
      injection hok with h1 h2
      injection h1 with h1
      subst h1
      subst h2
      have hvd : v = (bs.length : Int) := by
        unfold wrapBody at hv
        rw [hb] at hv
        dsimp only at hv
        injection hv with hv
        omega
      dsimp only
      rw [hvd,
        max_eq_right (by omega : (bs.length : Int) - (bs.length : Int) ≤ 0)]
    · have hw : wrapBody s = s := by
        unfold wrapBody
        rw [hb]
      rw [hw] at hv
      rw [read_none_stream s l v c hb hv] at hok
      injection hok with h1 h2
      injection h1 with h1
      subst h1
      subst h2
      dsimp only
      rw [lrAfter_eq_max v l.length hnn]
  · obtain ⟨e, he⟩ := read_amt_err s n c
    rw [hok] at he
    exact absurd he (by simp)

/-- A successful read starting from a zero tracked counter leaves the
counter at zero. -/
theorem read_ok_zero (s : RState) (a : Option Nat) (c : Bool) (d : List Nat)
    (s' : RState) (hok : read s a c = (Except.ok d, s'))
    (h0 : s.lengthRemaining = some 0) :
    s'.lengthRemaining = some 0 := by
  rcases hb : s.bodyRep with bs | l
  · rcases a with _ | n
    · rw [read_none_buffer s bs c hb] at hok
      injection hok with h1 h2
      subst h2
      rfl
    · obtain ⟨e, he⟩ := read_amt_err s n c
      rw [hok] at he
      exact absurd he (by simp)
  · have hv : (wrapBody s).lengthRemaining = some 0 := by
      unfold wrapBody
      rw [hb]
      exact h0
    have := read_ok_lr s a c d s' 0 hok hv le_rfl
    rw [this, max_eq_right (by omega : (0 : Int) - (d.length : Int) ≤ 0)]

/-- C4, counterexample.  A wrapper whose resolver-tracked counter is 7
but whose buffered body holds 5 bytes: the full read succeeds returning
5 bytes, yet the counter ends at 0, not at 7 - 5 = 2 — the first read
replaces the counter with the buffer length before decrementing, so a
successful read is not simply "decremented by the byte count".
Moreover a read with an explicit amount (which always fails with the
unbound `read_data`) still mutates the counter first and can take a
zero counter back to a positive value. -/
theorem c4_counterexample :
    (read { freshState [1, 2, 3, 4, 5] with lengthRemaining := some 7 }
        none false).1 = Except.ok [1, 2, 3, 4, 5] ∧
    (read { freshState [1, 2, 3, 4, 5] with lengthRemaining := some 7 }
        none false).2.lengthRemaining = some 0 ∧
    (7 : Int) - 5 ≠ 0 ∧
    ({ freshState [1, 2, 3] with
        lengthRemaining := some 0 } : RState).lengthRemaining = some 0 ∧
    (read { freshState [1, 2, 3] with lengthRemaining := some 0 }
        (some 1) false).1 = Except.error (PyErr.nameError "read_data") ∧
    (read { freshState [1, 2, 3] with lengthRemaining := some 0 }
        (some 1) false).2.lengthRemaining = some 2 := by
  decide

/-- C4, amended.  Across sequences of *successful* reads, a zero tracked
counter stays zero; and each successful read decrements the counter by
the byte count read, floored at zero — measured against the counter as
it stands after the first-read baseline reset to the buffer length
(`wrapBody`), which on the first read of a buffered body replaces the
resolver's value outright.  (A read with an explicit amount always
fails, but still mutates the counter before raising.) -/
theorem c4_amended :
    (∀ (s : RState) (calls : List (Option Nat × Bool)),
       readsOkB s calls = true → s.lengthRemaining = some 0 →
       (runReads s calls).lengthRemaining = some 0) ∧
    (∀ (s : RState) (a : Option Nat) (c : Bool) (d : List Nat) (s' : RState)
       (v : Int), read s a c = (Except.ok d, s') →
       (wrapBody s).lengthRemaining = some v → 0 ≤ v →
       s'.lengthRemaining = some (max (v - (d.length : Int)) 0) ∧
       (∀ w : Int, s'.lengthRemaining = some w → 0 ≤ w)) := by
  constructor
  · intro s calls
    induction calls generalizing s with
    | nil =>
      intro _ h0
      exact h0
    | cons hd tl ih =>
      intro hok h0
      unfold readsOkB at hok
      rcases hread : read s hd.1 hd.2 with ⟨r, s'⟩
      rw [hread] at hok
      rcases r with e | d
      · exact absurd hok (by simp)
      · unfold runReads
        rw [hread]
        exact ih s' hok (read_ok_zero s hd.1 hd.2 d s' hread h0)
  · intro s a c d s' v hok hv hnn
    have hlr := read_ok_lr s a c d s' v hok hv hnn
    refine ⟨hlr, ?_⟩
    intro w hw
    rw [hlr] at hw
    injection hw with hw
    omega

/-- Witness for C4: a two-read successful sequence from a zero counter
stays at zero, and a concrete successful stream read decrements 5 by 2
to 3. -/
theorem c4_amended_witness :
    (runReads { freshState [] with lengthRemaining := some 0 }
        [(none, false), (none, false)]).lengthRemaining = some 0 ∧
    (read { freshState [] with
        bodyRep := BodyRep.stream [9, 9], lengthRemaining := some 5 }
      none false).2.lengthRemaining = some (max ((5 : Int) - 2) 0) :=
  ⟨c4_amended.1 { freshState [] with lengthRemaining := some 0 }
      [(none, false), (none, false)] (by decide) (by decide),
   (c4_amended.2
      { freshState [] with
          bodyRep := BodyRep.stream [9, 9], lengthRemaining := some 5 }
      none false [9, 9]
      (read { freshState [] with
          bodyRep := BodyRep.stream [9, 9], lengthRemaining := some 5 }
        none false).2 5
      (by decide) (by decide) (by decide)).1⟩

/-! Claim C6. -/

/-- One unfolding step of the chunked-read loop. -/
theorem readChunkedFuel_succ (k : Nat) (s : RState) (amt : Option Nat) :
    readChunkedFuel (Nat.succ k) s amt =
      match read s amt false with
      | (Except.error e, s') => (Except.error e, s')
      | (Except.ok data, s') =>
        if data = [] then (Except.ok [], s')
        else
          match readChunkedFuel k s' amt with
          | (Except.ok chunks, s'') => (Except.ok (data :: chunks), s'')
          | (Except.error e, s'') => (Except.error e, s'') := rfl

/-- Exhausting the chunked read on a fresh nonempty buffered body yields
the one full-body chunk and stops on the following empty read. -/
theorem readChunked_cons (k : Nat) (x : Nat) (xs : List Nat) :
    readChunkedFuel (Nat.succ (Nat.succ k)) (freshState (x :: xs)) none
      = (Except.ok [x :: xs],
         { bodyRep := BodyRep.stream [], lengthRemaining := some 0,
           cachedBody := none, pool := none, connection := none,
           poolPuts := [], streamReads := 2, url := none,
           retriesField := none }) := by
  rw [readChunkedFuel_succ,
      read_none_buffer (freshState (x :: xs)) (x :: xs) false rfl]
  dsimp only
  rw [if_neg (by simp : ¬(x :: xs = ([] : List Nat)))]
  rw [readChunkedFuel_succ, read_none_stream _ [] 0 false rfl rfl]
  rfl

/-- C6.  With the default `amt = None`, pulling `read_chunked` to
exhaustion on a fresh body yields only non-empty chunks, stops without
yielding on the first empty read, and the concatenation of the yielded
chunks is exactly what `read(None)` returns on a fresh identical body
(any fuel bound of at least 2 suffices — the loop stops by itself).
With an explicit `amt`, however, the generator's very first `self.read`
raises the NameError for the unbound `read_data`, so it yields nothing:
chunked reading with a chunk size is broken by that line. -/
theorem c6_read_chunked :
    (∀ (bs : List Nat) (fuel : Nat), 2 ≤ fuel →
       ∃ chunks s',
         readChunkedFuel fuel (freshState bs) none = (Except.ok chunks, s') ∧
         (∀ ch ∈ chunks, ch ≠ []) ∧
         (read (freshState bs) none false).1 = Except.ok chunks.flatten) ∧
    (readChunkedFuel 2 (freshState [104, 105]) (some 1)).1
      = Except.error (PyErr.nameError "read_data") := by
  constructor
  · intro bs fuel hf
    obtain ⟨k, rfl⟩ : ∃ k, fuel = Nat.succ (Nat.succ k) :=
      ⟨fuel - 2, by omega⟩
    cases bs with
    | nil => exact ⟨[], _, rfl, by simp, rfl⟩
    | cons x xs =>
      refine ⟨[x :: xs], _, readChunked_cons k x xs, by simp, ?_⟩
      rw [read_none_buffer (freshState (x :: xs)) (x :: xs) false rfl]
      simp
  · decide

/-- Witness for C6: fuel 2 on the two-byte body `[5, 6]` yields the
single chunk `[5, 6]`, whose concatenation is the full body. -/
theorem c6_read_chunked_witness :
    ∃ chunks s',
      readChunkedFuel 2 (freshState [5, 6]) none = (Except.ok chunks, s') ∧
      (∀ ch ∈ chunks, ch ≠ []) ∧
      (read (freshState [5, 6]) none false).1 = Except.ok chunks.flatten :=
  c6_read_chunked.1 [5, 6] 2 (by decide)

/-! Claim C8. -/

/-- C8.  `json()` aggregates the body via `data`, decodes it as UTF-8 and
parses the text as JSON.  On a fresh body: invalid UTF-8 surfaces as the
UnicodeDecodeError (the DecodeError), valid UTF-8 with invalid JSON
surfaces as the JSONDecodeError (the ParseError), valid JSON returns the
decoded value, and the two error values are distinct — nothing is caught
or suppressed. -/
theorem c8_json_propagation (bs : List Nat) :
    (utf8Decode bs = none →
       (jsonMethod (freshState bs)).1 = Except.error PyErr.unicodeDecodeError) ∧
    (∀ cps, utf8Decode bs = some cps → jsonParse cps = none →
       (jsonMethod (freshState bs)).1 = Except.error PyErr.jsonDecodeError) ∧
    (∀ cps v, utf8Decode bs = some cps → jsonParse cps = some v →
       (jsonMethod (freshState bs)).1 = Except.ok v) ∧
    PyErr.unicodeDecodeError ≠ PyErr.jsonDecodeError := by
  have hdata : dataAcc (freshState bs)
      = (Except.ok bs,
         { freshState bs with
             bodyRep := BodyRep.stream [], lengthRemaining := some 0,
             cachedBody := if true then some bs else (freshState bs).cachedBody,
             streamReads := (freshState bs).streamReads + 1 }) := by
    unfold dataAcc freshState
    dsimp only
    exact read_none_buffer _ bs true rfl
  refine ⟨?_, ?_, ?_, by decide⟩
  · intro hd
    unfold jsonMethod
    rw [hdata]
    dsimp only
    rw [hd]
  · intro cps hd hp
    unfold jsonMethod
    rw [hdata]
    dsimp only
    rw [hd]
    dsimp only
    rw [hp]
  · intro cps v hd hp
    unfold jsonMethod
    rw [hdata]
    dsimp only
    rw [hd]
    dsimp only
    rw [hp]

/-- Witness for C8: the byte 255 is not UTF-8 (DecodeError); the ASCII
text "Hi" is valid UTF-8 but not JSON (ParseError); the bytes of
the object mapping key "a" to 1 decode and parse to that object. -/
theorem c8_json_propagation_witness :
    (jsonMethod (freshState [255])).1 = Except.error PyErr.unicodeDecodeError ∧
    (jsonMethod (freshState [72, 105])).1
      = Except.error PyErr.jsonDecodeError ∧
    (jsonMethod (freshState [123, 34, 97, 34, 58, 32, 49, 125])).1
      = Except.ok (JsonVal.jobj [([97], JsonVal.jnum false 1 [] false 0)]) :=
  ⟨(c8_json_propagation [255]).1 rfl,
   (c8_json_propagation [72, 105]).2.1 [72, 105] rfl rfl,
   (c8_json_propagation [123, 34, 97, 34, 58, 32, 49, 125]).2.2.1
     [123, 34, 97, 34, 58, 32, 49, 125]
     (JsonVal.jobj [([97], JsonVal.jnum false 1 [] false 0)]) rfl rfl⟩

end Urllib3
